import Mathlib

/-!
Shallow embedding of src/explockout.c (the explockout OpenLDAP overlay) and
verification of the specified properties of its timestamp handling, failure
counting, lockout policy and bind interception.

The C attribute chain (struct Attribute, linked through a_next) is embedded as
a Lean list of nodes; machine chars are compared through their byte values.
The parts of the design that the source file does not implement (the
exponential waiting-time computation and the host bind pipeline around the
overlay) are modelled from the spec and are marked as such.
-/

namespace Explockout

/-- ASCII-lowercase of one character code, as the C regex engine folds case for
REG_ICASE in the C locale: byte values 65..90 map to 97..122, all others are
unchanged. -/
def lowerByte (c : Char) : Nat :=
  if 65 ≤ c.toNat ∧ c.toNat ≤ 90 then c.toNat + 32 else c.toNat

/-- The literal pattern compiled at explockout.c:117 and 162
(regcomp with "pwdFailureTime", REG_ICASE), case-folded. -/
def pwdPat : List Nat := "pwdfailuretime".toList.map Char.toNat

/-- Whether the pattern occurs at the head of the byte list. -/
def patMatchesAt : List Nat → List Nat → Bool
  | [], _ => true
  | _ :: _, [] => false
  | p :: ps, c :: cs => p == c && patMatchesAt ps cs

/-- Whether the pattern occurs anywhere in the byte list (regexec semantics for
a literal pattern: unanchored substring search). -/
def hasSub (pat : List Nat) : List Nat → Bool
  | [] => patMatchesAt pat []
  | c :: rest => patMatchesAt pat (c :: rest) || hasSub pat rest

/-- regexec(&regex, desc, 0, NULL, 0) == 0 at explockout.c:127 and 172: the
attribute name matches the case-insensitive literal pattern "pwdFailureTime"
anywhere in the name. -/
def nameMatches (name : List Char) : Bool :=
  hasSub pwdPat (name.map lowerByte)

/-- One node of the entry attribute list (struct Attribute as consumed by this
file): the attribute description name (a_desc->ad_cname), the value strings
(a_vals) and the stored value count (a_numvals). The Lean list of nodes stands
for the a_next chain; the empty tail is the NULL a_next pointer. -/
structure Attr where
  name : List Char
  vals : List (List Char)
  numvals : Nat
deriving DecidableEq

/-- countPwdFailureTime (explockout.c:105-143). The while loop runs only while
attrs->a_next != NULL, so a node whose a_next is NULL is never examined; on the
first examined node whose name matches, the loop stops and num = a_numvals. -/
def countPwdFailureTime : List Attr → Nat
  | [] => 0
  | a :: rest =>
    if rest.isEmpty then 0
    else if nameMatches a.name then a.numvals
    else countPwdFailureTime rest

/-- The inner comparison loop of getLastPwdFailureTime (explockout.c:188-200):
scan up to 14 character positions of the candidate value v against the current
buffer contents; the first position where they differ decides, and the
candidate wins (is copied into the buffer) exactly when its byte is larger.
Equal prefixes of length 14 leave the buffer unchanged. The first argument is
the candidate, the second the current buffer contents. -/
def newWins : List Char → List Char → Bool
  | v :: vs, c :: cs =>
    if c.toNat < v.toNat then true
    else if v.toNat < c.toNat then false
    else newWins vs cs
  | _, _ => false

/-- The value loop of getLastPwdFailureTime (explockout.c:178-201), processing
the values in order against the running buffer val. A value shorter than 14
characters triggers exit(EXIT_FAILURE) at line 185, modelled as none; otherwise
the first 14 characters of the value replace the buffer when the comparison
loop decides the value is larger (strncpy at line 192). -/
def scanValues : List Char → List (List Char) → Option (List Char)
  | val, [] => some val
  | val, v :: vs =>
    if v.length < 14 then none
    else scanValues (if newWins (v.take 14) (val.take 14) then v.take 14 else val) vs

/-- Outcome of getLastPwdFailureTime: the function either runs to completion
with a matching attribute found (the buffer contents that are logged at line
202), runs to completion without finding one, or terminates the whole process
through exit(EXIT_FAILURE). -/
inductive GetLastResult where
  | found (val : List Char)
  | notFound
  | processExit
deriving DecidableEq

/-- getLastPwdFailureTime (explockout.c:146-211). The local buffer char val[15]
is never initialized before the comparisons at lines 190-196, so its initial
contents are an explicit parameter init. The traversal mirrors
countPwdFailureTime: the loop runs only while attrs->a_next != NULL, and on the
first examined matching node the value loop runs over a_vals[0..a_numvals-1]
and the outer loop breaks. -/
def getLastPwdFailureTime (init : List Char) : List Attr → GetLastResult
  | [] => .notFound
  | a :: rest =>
    if rest.isEmpty then .notFound
    else if nameMatches a.name then
      match scanValues init (a.vals.take a.numvals) with
      | some v => .found v
      | none => .processExit
    else getLastPwdFailureTime init rest

/-- LDAP_SUCCESS result code. -/
def LDAP_SUCCESS : Nat := 0

/-- SLAP_CB_CONTINUE: the slapd callback result meaning "continue processing,
this handler did not take over the operation". -/
def SLAP_CB_CONTINUE : Nat := 32768

/-- The part of the Operation state that explockout_bind_response touches:
op->o_bd->bd_info. -/
structure Op where
  bd_info : Nat
deriving DecidableEq

/-- Environment of one explockout_bind_response run: the result code and entry
produced by be_entry_get_rw (explockout.c:226), and the values the two
collaborator calls (be_entry_get_rw, be_entry_release_r) leave behind in
op->o_bd->bd_info before the function restores it. -/
structure FetchOutcome where
  rc : Nat
  entry : List Attr
  bdInfoAfterGet : Nat
  bdInfoAfterRelease : Nat
deriving DecidableEq

/-- Observable outcome of one explockout_bind_response run: the returned
callback code, whether any denial response was sent to the client
(send_ldap_error is present only inside a comment, lines 251-255), the final
value of the local nb_pwdFailureTime, the successive values held by
op->o_bd->bd_info (entry value first), and its value at return. -/
structure RespResult where
  ret : Nat
  denialSent : Bool
  nbFailures : Nat
  bdInfoTrace : List Nat
  bdInfoFinal : Nat
deriving DecidableEq

/-- explockout_bind_response (explockout.c:214-312). bi saves
op->o_bd->bd_info at entry (line 217); after be_entry_get_rw the field is
restored to bi (line 227); a failed fetch returns SLAP_CB_CONTINUE at line 230;
otherwise the failure count is computed (line 249), the entry is released and
the field is restored to bi again (line 310) before returning
SLAP_CB_CONTINUE (line 311). No response is ever sent and the count is not
used further. -/
def explockout_bind_response (op : Op) (fetch : FetchOutcome) : RespResult :=
  let bi := op.bd_info
  if fetch.rc = LDAP_SUCCESS then
    let nb := countPwdFailureTime fetch.entry
    ⟨SLAP_CB_CONTINUE, false, nb,
     [bi, fetch.bdInfoAfterGet, bi, fetch.bdInfoAfterRelease, bi], bi⟩
  else
    ⟨SLAP_CB_CONTINUE, false, 0, [bi, fetch.bdInfoAfterGet, bi], bi⟩

/-- A response handler sitting in the operation callback chain: the overlay
response handler explockout_bind_response, or any other handler. -/
inductive Handler where
  | explockoutResponse
  | other (n : Nat)
deriving DecidableEq

/-- The part of the Operation state that explockout_bind touches: the response
callback chain headed at op->o_callback and linked through sc_next. -/
structure BindOpState where
  chain : List Handler
deriving DecidableEq

/-- explockout_bind (explockout.c:314-329): allocate a callback whose
sc_response is explockout_bind_response, splice it in right after
op->o_callback (cb->sc_next = op->o_callback->sc_next;
op->o_callback->sc_next = cb), and return SLAP_CB_CONTINUE. Nothing is sent to
the client and no other state is changed. -/
def explockout_bind (st : BindOpState) : BindOpState × Nat :=
  match st.chain with
  | [] => (st, SLAP_CB_CONTINUE)
  | h :: rest => (⟨h :: Handler.explockoutResponse :: rest⟩, SLAP_CB_CONTINUE)

/-- Observable events of one bind attempt, in order of occurrence. -/
inductive Event where
  | credentialCheck
  | responseCallback (h : Handler)
  | denialBeforeCheck
deriving DecidableEq

/-- Modelled from the spec: the host bind pipeline around the overlay hook is
not part of src/explockout.c. Per the interception contract (spec section 4.4
and 6), the bind hook runs first; if it returns SLAP_CB_CONTINUE the host
proceeds to the real credential check and afterwards invokes the response
callbacks of the chain in order; only a hook that takes over the operation
(returns something other than SLAP_CB_CONTINUE after sending a denial) keeps
the credential check from running. -/
def hostBindTrace (st : BindOpState) : List Event :=
  let res := explockout_bind st
  if res.2 = SLAP_CB_CONTINUE then
    Event.credentialCheck :: res.1.chain.map Event.responseCallback
  else
    [Event.denialBeforeCheck]

/-- Modelled from the spec: the exponential waiting-time computation is missing
from src/explockout.c — only the comment above struct explockout_info
(lines 45-50) and the config parameters describe it. Running-product loop with
the cap required by spec section 4.3: as soon as the accumulator reaches
maxtime, stop and return maxtime. -/
def evalGo (basetime maxtime : Nat) : Nat → Nat → Nat
  | 0, acc => if maxtime ≤ acc then maxtime else acc
  | n + 1, acc =>
    if maxtime ≤ acc then maxtime else evalGo basetime maxtime n (acc * basetime)

/-- Modelled from the spec: evaluate(failureCount, basetime, maxtime) of spec
section 4.3, absent from the source. basetime ^ failureCount computed as a
running product starting at 1, capped at maxtime. -/
def evaluate (failureCount basetime maxtime : Nat) : Nat :=
  evalGo basetime maxtime failureCount 1

/-- Allow or deny decision of one evaluation. -/
inductive Verdict where
  | allowed
  | denied
deriving DecidableEq

/-- Modelled from the spec: the verdict derivation of spec sections 4.3-4.4,
absent from the source: count 0 allows; otherwise deny while
now < latest + waitSeconds. -/
def specVerdict (failureCount basetime maxtime latest now : Nat) : Verdict :=
  if failureCount = 0 then .allowed
  else if now < latest + evaluate failureCount basetime maxtime then .denied
  else .allowed

/-- This definition follows the words of the spec (sections 3 and 4.1), not the
source: a well formed FailureTimestamp is exactly 14 ASCII digits. It is used
only to compare the validation actually performed by the source against the
spec contract. -/
def specWellFormed14 (v : List Char) : Bool :=
  v.length == 14 && v.all Char.isDigit

end Explockout

namespace Explockout

/-- Shared fact about explockout_bind_response: on both return paths the
result code is SLAP_CB_CONTINUE, nothing is sent to the client, and
op->o_bd->bd_info is restored to its entry value. -/
theorem bind_response_const (op : Op) (fetch : FetchOutcome) :
    (explockout_bind_response op fetch).ret = SLAP_CB_CONTINUE ∧
    (explockout_bind_response op fetch).denialSent = false ∧
    (explockout_bind_response op fetch).bdInfoFinal = op.bd_info := by
  unfold explockout_bind_response
  split <;> exact ⟨rfl, rfl, rfl⟩

/-- The running product of the modelled policy engine never leaves the cap
behind: every result of evalGo is at most maxtime. -/
theorem evalGo_le (b m : Nat) : ∀ n acc : Nat, evalGo b m n acc ≤ m := by
  intro n
  induction n with
  | zero =>
    intro acc
    simp only [evalGo]
    split
    · exact Nat.le_refl m
    · omega
  | succ k ih =>
    intro acc
    simp only [evalGo]
    split
    · exact Nat.le_refl m
    · exact ih (acc * b)

/-- Claim C1: the spec demands that a malformed stored failure-timestamp value
be surfaced as a FormatError for that one evaluation, denying the attempt, and
that the evaluation never terminate the calling process. The source does the
opposite: on the 4-character stored value 2018 the extractor reaches
exit(EXIT_FAILURE) (explockout.c:185), terminating the whole process. This
theorem evaluates the embedded extractor at that failing input. -/
theorem c1_malformed_value_terminates_process :
    getLastPwdFailureTime ("00000000000000".toList)
      [⟨"pwdFailureTime".toList, ["2018".toList], 1⟩, ⟨"cn".toList, [], 0⟩] =
      GetLastResult.processExit := by decide

/-- Claim C2: the spec requires a Denied verdict to short-circuit the real
credential check. In the source, explockout_bind always returns
SLAP_CB_CONTINUE and only splices a response callback after op->o_callback, so
the real credential check runs on every attempt and the overlay code runs only
afterwards — shown here on an attempt whose verdict under the spec policy is
denied (3 failures, basetime 2, maxtime 60, latest failure 1 second before
now). -/
theorem c2_denied_attempt_still_reaches_credential_check :
    specVerdict 3 2 60 1000 1001 = Verdict.denied ∧
    (explockout_bind ⟨[Handler.other 0]⟩).2 = SLAP_CB_CONTINUE ∧
    hostBindTrace ⟨[Handler.other 0]⟩ =
      [Event.credentialCheck, Event.responseCallback (Handler.other 0),
       Event.responseCallback Handler.explockoutResponse] := by decide

/-- Claim C3: for every failure count and non-negative basetime and maxtime,
evaluate(failureCount, basetime, maxtime) is at most maxtime, and the running
product stops and returns maxtime as soon as the accumulator has reached
maxtime, so the product is never grown past the cap. -/
theorem c3_evaluate_capped_at_maxtime :
    ∀ failureCount basetime maxtime : Nat,
      evaluate failureCount basetime maxtime ≤ maxtime ∧
      (∀ n acc : Nat, maxtime ≤ acc → evalGo basetime maxtime n acc = maxtime) := by
  intro fc b m
  refine ⟨evalGo_le b m fc 1, ?_⟩
  intro n acc h
  cases n <;> simp [evalGo, h]

/-- Witness for C3 at concrete inputs: evaluate 100 2 60 stays at most 60, and
an accumulator that has reached the cap returns the cap. -/
theorem c3_evaluate_capped_at_maxtime_witness :
    evaluate 100 2 60 ≤ 60 ∧ evalGo 2 60 5 60 = 60 :=
  ⟨(c3_evaluate_capped_at_maxtime 100 2 60).1,
   (c3_evaluate_capped_at_maxtime 100 2 60).2 5 60 (Nat.le_refl 60)⟩

/-- Claim C4: the spec says the extractor returns the lexicographically maximal
well-formed value, computed with no uninitialized state. In the source the
running maximum starts from the uninitialized stack buffer char val[15]; when
the garbage initially in the buffer compares greater than every stored value,
the buffer keeps the garbage and the logged latest value is not the stored
maximum. Evaluated here with garbage bytes all ASCII 9 against the single
well-formed stored value 20180101000000. -/
theorem c4_latest_from_uninitialized_buffer :
    getLastPwdFailureTime ("99999999999999".toList)
      [⟨"pwdFailureTime".toList, ["20180101000000".toList], 1⟩, ⟨"cn".toList, [], 0⟩] =
      GetLastResult.found ("99999999999999".toList) ∧
    specWellFormed14 ("20180101000000".toList) = true ∧
    "99999999999999".toList ≠ "20180101000000".toList := by decide

/-- Counterexample to claim C5 as stated: the stored value 2018010100000X has
14 characters but contains a non-digit and is accepted anyway (no rejection,
the value is even installed as the running maximum), and the 15-character value
201801010000005 is also accepted, with only its first 14 characters used.
The spec-side predicate specWellFormed14 rejects both. -/
theorem c5_nondigit_and_overlength_accepted :
    scanValues ("00000000000000".toList) ["2018010100000X".toList] =
      some ("2018010100000X".toList) ∧
    specWellFormed14 ("2018010100000X".toList) = false ∧
    scanValues ("00000000000000".toList) ["201801010000005".toList] =
      some ("20180101000000".toList) ∧
    specWellFormed14 ("201801010000005".toList) = false := by decide

/-- Claim C5 as amended: the only validation the source applies to a stored
value is the length test value_len < 14; the value scan rejects (by process
termination) exactly those value lists containing a value shorter than 14
characters, and digit content is never checked. -/
theorem c5_scan_rejects_exactly_short_values :
    ∀ (vs : List (List Char)) (val : List Char),
      scanValues val vs = none ↔ ∃ v, v ∈ vs ∧ v.length < 14 := by
  intro vs
  induction vs with
  | nil =>
    intro val
    simp [scanValues]
  | cons v vs ih =>
    intro val
    by_cases h : v.length < 14
    · simp only [scanValues, if_pos h]
      exact ⟨fun _ => ⟨v, List.mem_cons_self v vs, h⟩, fun _ => trivial⟩
    · simp only [scanValues, if_neg h]
      rw [ih]
      constructor
      · rintro ⟨u, hu, hl⟩
        exact ⟨u, List.mem_cons_of_mem v hu, hl⟩
      · rintro ⟨u, hu, hl⟩
        rcases List.mem_cons.mp hu with rfl | hu2
        · exact absurd hl h
        · exact ⟨u, hu2, hl⟩

/-- Instantiation of the amended C5 theorem at a concrete input: a list holding
the 4-character value 2018 is rejected. -/
theorem c5_scan_rejects_exactly_short_values_witness :
    scanValues ("00000000000000".toList) ["2018".toList] = none ↔
      ∃ v, v ∈ ["2018".toList] ∧ v.length < 14 :=
  c5_scan_rejects_exactly_short_values ["2018".toList] ("00000000000000".toList)

/-- Counterexample to claim C6 as stated: on a failed entry fetch (result code
52, busy/unavailable) the response callback sends no denial and returns the
same SLAP_CB_CONTINUE it returns for a normal evaluation — nothing is surfaced
as "cannot evaluate" and nothing is denied. -/
theorem c6_fetch_failure_no_error_no_deny :
    (explockout_bind_response ⟨3⟩ ⟨52, [], 8, 9⟩).denialSent = false ∧
    (explockout_bind_response ⟨3⟩ ⟨52, [], 8, 9⟩).ret = SLAP_CB_CONTINUE := by decide

/-- Claim C6 as amended: whenever the entry fetch fails, explockout_bind_response
returns SLAP_CB_CONTINUE immediately (explockout.c:230) with no evaluation, no
surfaced error and no denial: the attempt is silently passed through
(fail open). -/
theorem c6_fetch_failure_silent_continue :
    ∀ (op : Op) (fetch : FetchOutcome), fetch.rc ≠ LDAP_SUCCESS →
      explockout_bind_response op fetch =
        ⟨SLAP_CB_CONTINUE, false, 0,
         [op.bd_info, fetch.bdInfoAfterGet, op.bd_info], op.bd_info⟩ := by
  intro op fetch h
  simp [explockout_bind_response, h]

/-- Witness for the amended C6 theorem at a concrete failed fetch. -/
theorem c6_fetch_failure_silent_continue_witness :
    explockout_bind_response ⟨5⟩ ⟨1, [], 7, 9⟩ =
      ⟨SLAP_CB_CONTINUE, false, 0, [5, 7, 5], 5⟩ :=
  c6_fetch_failure_silent_continue ⟨5⟩ ⟨1, [], 7, 9⟩ (by decide)

/-- Claim C7: under the zero-failure exponent convention the modelled policy
engine yields evaluate(0, basetime, maxtime) = 1 for every configuration
(maxtime a positive integer, spec section 3), and an attempt whose extracted
failure count is 0 passes through the response hook unmodified: the hook
returns SLAP_CB_CONTINUE and sends no denial. -/
theorem c7_zero_failures_allow :
    (∀ basetime maxtime : Nat, 1 ≤ maxtime → evaluate 0 basetime maxtime = 1) ∧
    (∀ (op : Op) (fetch : FetchOutcome), countPwdFailureTime fetch.entry = 0 →
      (explockout_bind_response op fetch).ret = SLAP_CB_CONTINUE ∧
      (explockout_bind_response op fetch).denialSent = false) := by
  constructor
  · intro b m h
    simp only [evaluate, evalGo]
    split
    · omega
    · rfl
  · intro op fetch _
    exact ⟨(bind_response_const op fetch).1, (bind_response_const op fetch).2.1⟩

/-- Witness for C7 at concrete inputs: evaluate 0 5 300 = 1, and an entry whose
only attribute chain node is a non-matching cn node (count 0) passes through
with SLAP_CB_CONTINUE and no denial. -/
theorem c7_zero_failures_allow_witness :
    evaluate 0 5 300 = 1 ∧
    ((explockout_bind_response ⟨2⟩ ⟨0, [⟨"cn".toList, [], 0⟩], 4, 6⟩).ret =
        SLAP_CB_CONTINUE ∧
      (explockout_bind_response ⟨2⟩ ⟨0, [⟨"cn".toList, [], 0⟩], 4, 6⟩).denialSent =
        false) :=
  ⟨c7_zero_failures_allow.1 5 300 (by decide),
   c7_zero_failures_allow.2 ⟨2⟩ ⟨0, [⟨"cn".toList, [], 0⟩], 4, 6⟩ (by decide)⟩

/-- Claim C8: on every operation and reply, explockout_bind_response returns
SLAP_CB_CONTINUE and sends no denial response, so the computed failure count
never alters the bind outcome and the result of the underlying credential
check is propagated unchanged. -/
theorem c8_response_always_continues :
    ∀ (op : Op) (fetch : FetchOutcome),
      (explockout_bind_response op fetch).ret = SLAP_CB_CONTINUE ∧
      (explockout_bind_response op fetch).denialSent = false :=
  fun op fetch =>
    ⟨(bind_response_const op fetch).1, (bind_response_const op fetch).2.1⟩

/-- Claim C9: when the only attribute whose name matches pwdFailureTime is the
final node of the chain (its a_next is NULL), the traversal loops of
countPwdFailureTime and getLastPwdFailureTime never examine it: the count is 0
and no value is found. -/
theorem c9_final_attribute_never_examined :
    ∀ (init : List Char) (pre : List Attr) (tailAttr : Attr),
      (∀ a ∈ pre, nameMatches a.name = false) →
      nameMatches tailAttr.name = true →
      countPwdFailureTime (pre ++ [tailAttr]) = 0 ∧
      getLastPwdFailureTime init (pre ++ [tailAttr]) = GetLastResult.notFound := by
  intro init pre tailAttr
  induction pre with
  | nil =>
    intro _ _
    exact ⟨rfl, rfl⟩
  | cons a pre2 ih =>
    intro hpre hlast
    have hne : (pre2 ++ [tailAttr]).isEmpty = false := by cases pre2 <;> rfl
    have ha : nameMatches a.name = false := hpre a (List.mem_cons_self a pre2)
    have ihr := ih (fun x hx => hpre x (List.mem_cons_of_mem a hx)) hlast
    refine ⟨?_, ?_⟩
    · simp [List.cons_append, countPwdFailureTime, hne, ha, ihr.1]
    · simp [List.cons_append, getLastPwdFailureTime, hne, ha, ihr.2]

/-- Witness for C9 at a concrete chain: cn node followed by a final
pwdFailureTime node holding one well-formed value; the count is 0 and nothing
is found. -/
theorem c9_final_attribute_never_examined_witness :
    countPwdFailureTime
        ([⟨"cn".toList, [], 0⟩] ++
          [⟨"pwdFailureTime".toList, ["20180101000000".toList], 1⟩]) = 0 ∧
    getLastPwdFailureTime ("00000000000000".toList)
        ([⟨"cn".toList, [], 0⟩] ++
          [⟨"pwdFailureTime".toList, ["20180101000000".toList], 1⟩]) =
      GetLastResult.notFound :=
  c9_final_attribute_never_examined ("00000000000000".toList)
    [⟨"cn".toList, [], 0⟩] ⟨"pwdFailureTime".toList, ["20180101000000".toList], 1⟩
    (by decide) (by decide)

/-- Claim C10: on every return path of explockout_bind_response, the field
op->o_bd->bd_info holds the value it held at entry: it is saved into bi at
line 217 and written back before each return (lines 227 and 310). -/
theorem c10_bd_info_restored_on_return :
    ∀ (op : Op) (fetch : FetchOutcome),
      (explockout_bind_response op fetch).bdInfoFinal = op.bd_info :=
  fun op fetch => (bind_response_const op fetch).2.2

end Explockout
